import Mathlib

/-!
Verification of the Trading Platform server (src/server/database.py and
src/server/app.py) against its natural-language specification.

The SQLite tables become Lean lists of records; each `Database.*` method of
`database.py` becomes a pure function on a `Database` value.  SQL semantics
used by the source are embedded as follows:

* `SELECT ... WHERE ... LIMIT/fetchone` is `List.find?` (first matching row,
  rows kept in insertion = rowid order);
* `UPDATE ... WHERE` is `List.map` guarded by the WHERE predicate;
* `DELETE ... WHERE` is `List.filter` with the negated predicate;
* `INSERT` appends to the list and `AUTOINCREMENT` ids come from explicit
  counters (`next_user_id`, `next_transaction_id`), starting at 1;
* `INNER JOIN resources` adds a "the referenced resource row exists" guard;
* `ORDER BY t.timestamp DESC` is a stable descending `List.mergeSort` over
  the rows in insertion order;
* `DATETIME` values are abstract `Nat` clock readings supplied by callers
  (the source lets SQLite fill `CURRENT_TIMESTAMP`);
* SQLite `REAL` money/quantity values are embedded as exact rationals `ℚ`;
* a Python exception escaping a `Database` method becomes an `Except.error`;
  as in sqlite, the raising call's own connection never commits, so the
  errored call mutates nothing.

Unused bookkeeping columns (`created_at` on users and positions, the surrogate
`id` of position rows) are not modelled: no operation of the source reads them.
-/

namespace TradingPlatform

/-- Row of the `users` table (`database.py`, `init_database`). -/
structure User where
  id : Nat
  username : String
  email : String
  hashed_password : String
  balance : ℚ
deriving DecidableEq, Repr

/-- Row of the `resources` table. -/
structure Resource where
  id : Nat
  symbol : String
  name : String
  current_price : ℚ
  volatility : ℚ
  last_updated : Nat
deriving DecidableEq, Repr

/-- Row of the `positions` table, keyed by `(user_id, resource_id)`. -/
structure Position where
  user_id : Nat
  resource_id : Nat
  quantity : ℚ
  average_price : ℚ
deriving DecidableEq, Repr

/-- Row of the `transactions` table. -/
structure Transaction where
  id : Nat
  user_id : Nat
  resource_id : Nat
  transaction_type : String
  quantity : ℚ
  price : ℚ
  total_value : ℚ
  timestamp : Nat
deriving DecidableEq, Repr

/-- The whole SQLite database: the four tables in rowid (insertion) order,
plus the AUTOINCREMENT counters. -/
structure Database where
  users : List User
  resources : List Resource
  positions : List Position
  transactions : List Transaction
  next_user_id : Nat
  next_transaction_id : Nat
deriving DecidableEq, Repr

/-- A freshly initialised database with no rows (bootstrap resources and the
test user are left out; claims quantify over database states anyway). -/
def emptyDatabase : Database :=
  { users := [], resources := [], positions := [], transactions := []
    next_user_id := 1, next_transaction_id := 1 }

/-- `Database.create_user` (database.py lines 164-180): INSERT with the
balance hard-wired to 10000.0; the UNIQUE constraints on username and email
surface as a `ValueError`. -/
def create_user (db : Database) (username email password_hash : String) :
    Except String (Nat × Database) :=
  if db.users.any (fun u => u.username == username || u.email == email) then
    Except.error "User with this username or email already exists"
  else
    Except.ok (db.next_user_id,
      { db with
        users := db.users ++
          [{ id := db.next_user_id, username := username, email := email
             hashed_password := password_hash, balance := 10000 }]
        next_user_id := db.next_user_id + 1 })

/-- `Database.get_user_by_id` (database.py lines 197-210). -/
def get_user_by_id (db : Database) (user_id : Nat) : Option User :=
  db.users.find? (fun u => u.id == user_id)

/-- `Database.update_user_balance` (database.py lines 212-224):
`UPDATE users SET balance = ? WHERE id = ?`. -/
def update_user_balance (db : Database) (user_id : Nat) (new_balance : ℚ) :
    Database :=
  { db with
    users := db.users.map (fun u =>
      if u.id == user_id then { u with balance := new_balance } else u) }

/-- `Database.get_resource_by_symbol` (database.py lines 239-252). -/
def get_resource_by_symbol (db : Database) (symbol : String) : Option Resource :=
  db.resources.find? (fun r => r.symbol == symbol)

/-- `Database.update_resource_price` (database.py lines 254-266):
`UPDATE resources SET current_price = ?, last_updated = ? WHERE id = ?`,
with no validation of the new price. -/
def update_resource_price (db : Database) (resource_id : Nat) (new_price : ℚ)
    (now : Nat) : Database :=
  { db with
    resources := db.resources.map (fun r =>
      if r.id == resource_id then
        { r with current_price := new_price, last_updated := now }
      else r) }

/-- Guard expressing the `INNER JOIN resources r ON x.resource_id = r.id`
used by the position and transaction queries: the joined row is visible only
if the referenced resource row exists. -/
def resource_exists (db : Database) (resource_id : Nat) : Bool :=
  db.resources.any (fun r => r.id == resource_id)

/-- `Database.get_position` (database.py lines 295-319): first row of the
positions-to-resources join for the given pair. -/
def get_position (db : Database) (user_id resource_id : Nat) : Option Position :=
  (db.positions.find? (fun p => p.user_id == user_id && p.resource_id == resource_id)).bind
    (fun p => if resource_exists db p.resource_id then some p else none)

/-- A Python exception escaping a `Database` method.  `indexError` is the
`IndexError` sqlite3.Row raises when a column absent from the SELECT list is
accessed. -/
inductive DbError where
  | indexError
deriving DecidableEq, Repr

/-- `Database.create_or_update_position` (database.py lines 321-360), the
Position Book `applyFill`.  The initial SELECT (lines 328-331) fetches only
`id, quantity`.  On an existing row with surviving quantity the source then
reads `existing["average_price"]` (line 345) — a column the SELECT did not
fetch — so sqlite3.Row raises `IndexError` before the UPDATE statement runs;
the commit at line 358 is never reached and the connection closes with no
mutation.  The delete branch (new quantity ≤ 0) reads only `quantity` and
commits normally, and with no existing row the arguments are inserted as
given. -/
def create_or_update_position (db : Database) (user_id resource_id : Nat)
    (quantity average_price : ℚ) : Except DbError Database :=
  match db.positions.find?
      (fun p => p.user_id == user_id && p.resource_id == resource_id) with
  | some existing =>
    let new_quantity := existing.quantity + quantity
    if new_quantity ≤ 0 then
      Except.ok
        { db with
          positions := db.positions.filter (fun p =>
            !(p.user_id == user_id && p.resource_id == resource_id)) }
    else
      Except.error DbError.indexError
  | none =>
    Except.ok
      { db with
        positions := db.positions ++
          [{ user_id := user_id, resource_id := resource_id
             quantity := quantity, average_price := average_price }] }

/-- `Database.create_transaction` (database.py lines 363-378): append-only
INSERT returning the fresh rowid. -/
def create_transaction (db : Database) (user_id resource_id : Nat)
    (transaction_type : String) (quantity price total_value : ℚ) (ts : Nat) :
    Nat × Database :=
  (db.next_transaction_id,
    { db with
      transactions := db.transactions ++
        [{ id := db.next_transaction_id, user_id := user_id
           resource_id := resource_id, transaction_type := transaction_type
           quantity := quantity, price := price, total_value := total_value
           timestamp := ts }]
      next_transaction_id := db.next_transaction_id + 1 })

/-- `Database.get_user_transactions` (database.py lines 380-406): the user's
rows of the transactions-to-resources join, `ORDER BY t.timestamp DESC`.  The
sort is a stable descending merge sort over the rows in insertion order. -/
def get_user_transactions (db : Database) (user_id : Nat) : List Transaction :=
  (db.transactions.filter (fun t =>
      t.user_id == user_id && resource_exists db t.resource_id)).mergeSort
    (fun a b => decide (b.timestamp ≤ a.timestamp))

/-- Synchronous failures of `execute_trade` (app.py lines 174-243), one per
distinct rejection of the handler.  `internalError` stands for the Python
`TypeError` raised when a `None` user record is dereferenced (reported as a
500 by the generic handler); `storageFailure` is an underlying persistence
error surfacing from a `db` call. -/
inductive TradeError where
  | invalidTradeType
  | invalidArgument
  | resourceNotFound
  | insufficientFunds
  | insufficientQuantity
  | internalError
  | storageFailure
deriving DecidableEq, Repr

/-- The successful payload of `execute_trade`: the fresh transaction rowid
and the balance re-read after the trade. -/
structure TradeResult where
  transaction_id : Nat
  balance : ℚ
deriving DecidableEq, Repr

/-- Tail of `execute_trade` (app.py lines 225-237): append the transaction
record, then re-read the user to report the new balance.  Both arms return
the mutated database: an error at this point does not undo prior commits. -/
def trade_finish (db2 : Database) (user_id resource_id : Nat)
    (trade_type : String) (quantity price total_value : ℚ) (ts : Nat) :
    Database × Except TradeError TradeResult :=
  let res := create_transaction db2 user_id resource_id trade_type quantity
    price total_value ts
  match get_user_by_id res.2 user_id with
  | none => (res.2, Except.error TradeError.internalError)
  | some updated_user =>
    (res.2, Except.ok { transaction_id := res.1, balance := updated_user.balance })

/-- `execute_trade` (app.py lines 174-243), the Trade Engine.  Returns the
observable database state together with the outcome; every rejection happens
before the first mutation, so those error branches return the input state.
The generic `except Exception` handler (app.py lines 241-243) only re-raises
as a 500: its arms are `internalError`, placed exactly where the source would
raise — at the `None`-user dereference (`user_data["balance"]`) and at the
`IndexError` escaping `create_or_update_position`.  In the latter case the
balance update has already committed in its own connection, so the observable
state is the balance-mutated one. -/
def execute_trade (db : Database) (user_id : Nat)
    (trade_type resource_symbol : String) (quantity : ℚ) (ts : Nat) :
    Database × Except TradeError TradeResult :=
  if ¬(trade_type = "buy" ∨ trade_type = "sell") then
    (db, Except.error TradeError.invalidTradeType)
  else if resource_symbol = "" ∨ quantity ≤ 0 then
    (db, Except.error TradeError.invalidArgument)
  else
    match get_resource_by_symbol db resource_symbol with
    | none => (db, Except.error TradeError.resourceNotFound)
    | some resource =>
      let price := resource.current_price
      let total_value := quantity * price
      if trade_type = "buy" then
        match get_user_by_id db user_id with
        | none => (db, Except.error TradeError.internalError)
        | some user_data =>
          if user_data.balance < total_value then
            (db, Except.error TradeError.insufficientFunds)
          else
            let new_balance := user_data.balance - total_value
            let db1 := update_user_balance db user_id new_balance
            match create_or_update_position db1 user_id resource.id
                quantity price with
            | Except.error _ => (db1, Except.error TradeError.internalError)
            | Except.ok db2 =>
              trade_finish db2 user_id resource.id trade_type quantity price
                total_value ts
      else
        match get_position db user_id resource.id with
        | none => (db, Except.error TradeError.insufficientQuantity)
        | some position =>
          if position.quantity < quantity then
            (db, Except.error TradeError.insufficientQuantity)
          else
            match get_user_by_id db user_id with
            | none => (db, Except.error TradeError.internalError)
            | some user_data =>
              let new_balance := user_data.balance + total_value
              let db1 := update_user_balance db user_id new_balance
              match create_or_update_position db1 user_id resource.id
                  (-quantity) price with
              | Except.error _ => (db1, Except.error TradeError.internalError)
              | Except.ok db2 =>
                trade_finish db2 user_id resource.id trade_type quantity price
                  total_value ts

/-- `execute_trade` with storage-failure injection, for the atomicity claim.
Each of the three mutating steps runs in its own SQLite connection and
commits independently (database.py opens and commits per call), so a step
that fails leaves every previously committed step in place; the handler's
`except` clause only re-raises (app.py lines 239-243) and performs no
rollback.  `fail_balance` / `fail_position` / `fail_txn` make the
corresponding step raise `StorageFailure` instead of committing. -/
def execute_trade_faulty (fail_balance fail_position fail_txn : Bool)
    (db : Database) (user_id : Nat) (trade_type resource_symbol : String)
    (quantity : ℚ) (ts : Nat) : Database × Except TradeError TradeResult :=
  if ¬(trade_type = "buy" ∨ trade_type = "sell") then
    (db, Except.error TradeError.invalidTradeType)
  else if resource_symbol = "" ∨ quantity ≤ 0 then
    (db, Except.error TradeError.invalidArgument)
  else
    match get_resource_by_symbol db resource_symbol with
    | none => (db, Except.error TradeError.resourceNotFound)
    | some resource =>
      let price := resource.current_price
      let total_value := quantity * price
      if trade_type = "buy" then
        match get_user_by_id db user_id with
        | none => (db, Except.error TradeError.internalError)
        | some user_data =>
          if user_data.balance < total_value then
            (db, Except.error TradeError.insufficientFunds)
          else if fail_balance then (db, Except.error TradeError.storageFailure)
          else
            let db1 := update_user_balance db user_id
              (user_data.balance - total_value)
            if fail_position then (db1, Except.error TradeError.storageFailure)
            else
              match create_or_update_position db1 user_id resource.id
                  quantity price with
              | Except.error _ => (db1, Except.error TradeError.internalError)
              | Except.ok db2 =>
                if fail_txn then (db2, Except.error TradeError.storageFailure)
                else
                  trade_finish db2 user_id resource.id trade_type quantity
                    price total_value ts
      else
        match get_position db user_id resource.id with
        | none => (db, Except.error TradeError.insufficientQuantity)
        | some position =>
          if position.quantity < quantity then
            (db, Except.error TradeError.insufficientQuantity)
          else
            match get_user_by_id db user_id with
            | none => (db, Except.error TradeError.internalError)
            | some user_data =>
              if fail_balance then (db, Except.error TradeError.storageFailure)
              else
                let db1 := update_user_balance db user_id
                  (user_data.balance + total_value)
                if fail_position then
                  (db1, Except.error TradeError.storageFailure)
                else
                  match create_or_update_position db1 user_id resource.id
                      (-quantity) price with
                  | Except.error _ =>
                    (db1, Except.error TradeError.internalError)
                  | Except.ok db2 =>
                    if fail_txn then
                      (db2, Except.error TradeError.storageFailure)
                    else
                      trade_finish db2 user_id resource.id trade_type quantity
                        price total_value ts

/-- The balance the database currently stores for a user (0 if absent). -/
def userBalance (db : Database) (user_id : Nat) : ℚ :=
  match get_user_by_id db user_id with
  | some u => u.balance
  | none => 0

/-- The quantity of the stored position record of a pair, if any. -/
def pairQty (db : Database) (user_id resource_id : Nat) : Option ℚ :=
  (db.positions.find?
    (fun p => p.user_id == user_id && p.resource_id == resource_id)).map
    (fun p => p.quantity)

/-- The average price of the stored position record of a pair, if any. -/
def pairAvg (db : Database) (user_id resource_id : Nat) : Option ℚ :=
  (db.positions.find?
    (fun p => p.user_id == user_id && p.resource_id == resource_id)).map
    (fun p => p.average_price)

/-- Signed cash flow of a recorded transaction: sells credit `total_value`,
buys debit it. -/
def signedValue (t : Transaction) : ℚ :=
  if t.transaction_type = "sell" then t.total_value else -t.total_value

/-- Sum of the signed cash flows of a user's recorded transactions. -/
def txnSignedSum (user_id : Nat) (txns : List Transaction) : ℚ :=
  ((txns.filter (fun t => t.user_id == user_id)).map signedValue).sum

/-- A trade order as received by `execute_trade`. -/
structure TradeRequest where
  user_id : Nat
  trade_type : String
  resource_symbol : String
  quantity : ℚ
  ts : Nat
deriving DecidableEq, Repr

/-- Run a sequence of orders, keeping whatever state each attempt leaves. -/
def runTrades (db : Database) (reqs : List TradeRequest) : Database :=
  reqs.foldl
    (fun d r =>
      (execute_trade d r.user_id r.trade_type r.resource_symbol r.quantity
        r.ts).1)
    db

/-- One Position Book fill: the pair it hits, the signed quantity, and the
fill price, as passed to `create_or_update_position`. -/
structure Fill where
  user_id : Nat
  resource_id : Nat
  quantity : ℚ
  price : ℚ
deriving DecidableEq, Repr

/-- Apply a sequence of fills through `create_or_update_position`.  A fill
whose call raises leaves the book exactly as it was (nothing was committed);
later fills still run, as later independent calls would. -/
def applyFills (db : Database) (fills : List Fill) : Database :=
  fills.foldl
    (fun d f =>
      match create_or_update_position d f.user_id f.resource_id f.quantity
          f.price with
      | Except.ok d2 => d2
      | Except.error _ => d)
    db

/-- Signed sum of a pair's fill quantities in a sequence. -/
def sumFills (user_id resource_id : Nat) (fills : List Fill) : ℚ :=
  ((fills.filter (fun f =>
      f.user_id == user_id && f.resource_id == resource_id)).map
    (fun f => f.quantity)).sum

/-! Concrete database states used as failing inputs and witnesses. -/

/-- A book holding one long position: 20 units at average cost 110. -/
def dbLong : Database := { emptyDatabase with positions := [⟨1, 1, 20, 110⟩] }

/-- One user with the initial 10000 balance and one priced resource. -/
def dbTrade : Database :=
  { emptyDatabase with
    users := [⟨1, "alice", "alice@example.com", "hash", 10000⟩]
    resources := [⟨1, "ENG", "Energy Units", 100, 3/100, 0⟩] }

/-- A store holding one resource priced 100. -/
def dbStore : Database :=
  { emptyDatabase with resources := [⟨1, "ENG", "Energy Units", 100, 1/50, 0⟩] }

/-- The database produced by registering one user into the empty database. -/
def dbAfterRegister : Database :=
  { emptyDatabase with
    users := [⟨1, "bob", "bob@example.com", "hash2", 10000⟩]
    next_user_id := 2 }

/-- A transaction log with two users and a timestamp tie (rows 1 and 3 of
user 1 both carry timestamp 5; row 4 carries 8; row 2 belongs to user 2). -/
def dbLog : Database :=
  { emptyDatabase with
    resources := [⟨1, "ENG", "Energy Units", 100, 1/50, 0⟩]
    transactions :=
      [⟨1, 1, 1, "buy", 1, 10, 10, 5⟩, ⟨2, 2, 1, "buy", 1, 10, 10, 9⟩,
       ⟨3, 1, 1, "sell", 1, 12, 12, 5⟩, ⟨4, 1, 1, "buy", 2, 11, 22, 8⟩]
    next_transaction_id := 5 }

/-!
## Claim theorems
-/

/-- C1: evaluation of `create_or_update_position` at the failing inputs.
On an existing position of 20 units at average cost 110, both a sell of 15 at
fill price 130 (which per the claim should keep the average cost 110) and a
buy of 10 at 130 (which per the claim should blend the average cost) raise
`IndexError` instead: the SELECT fetched only `id, quantity`, so reading
`existing["average_price"]` fails and the row is left untouched — neither
average-cost rule is ever computed. -/
theorem position_update_raises_index_error :
    create_or_update_position dbLong 1 1 (-15) 130 =
      Except.error DbError.indexError ∧
    create_or_update_position dbLong 1 1 10 130 =
      Except.error DbError.indexError ∧
    pairQty dbLong 1 1 = some 20 ∧ pairAvg dbLong 1 1 = some 110 := by
  norm_num [create_or_update_position, pairQty, pairAvg, dbLong,
    emptyDatabase, List.find?]

/-- C2: evaluation of the trade protocol with a storage failure injected at
the position step of a buy.  The balance debit has already committed in its
own connection, the handler only re-raises, and the final state shows the
balance mutated while position and transaction log are untouched — a partial
effect the claim forbids. -/
theorem storage_failure_leaves_partial_effect :
    (execute_trade_faulty false true false dbTrade 1 "buy" "ENG" 10 0).2 =
      Except.error TradeError.storageFailure ∧
    userBalance dbTrade 1 = 10000 ∧
    userBalance (execute_trade_faulty false true false dbTrade 1 "buy" "ENG"
      10 0).1 1 = 9000 ∧
    (execute_trade_faulty false true false dbTrade 1 "buy" "ENG" 10 0).1.positions
      = dbTrade.positions ∧
    (execute_trade_faulty false true false dbTrade 1 "buy" "ENG" 10 0).1.transactions
      = dbTrade.transactions := by
  norm_num +decide [execute_trade_faulty, userBalance, get_user_by_id,
    get_resource_by_symbol, update_user_balance, dbTrade, emptyDatabase,
    List.find?]

/-- C5: evaluation at the failing input.  Two buy fills of 5 and 3 on the
same pair — a sequence the Trade Engine itself produces — leave the stored
quantity at 5, not the signed sum 8: the second fill finds the existing row
and raises `IndexError` before mutating anything, so the book cannot track
the signed sum of fills. -/
theorem second_buy_lost_to_index_error :
    pairQty (applyFills emptyDatabase
      [⟨1, 1, 5, 100⟩, ⟨1, 1, 3, 100⟩]) 1 1 = some 5 ∧
    sumFills 1 1 [⟨1, 1, 5, 100⟩, ⟨1, 1, 3, 100⟩] = 8 ∧
    create_or_update_position
        { emptyDatabase with positions := [⟨1, 1, 5, 100⟩] } 1 1 3 100 =
      Except.error DbError.indexError ∧
    (5 : ℚ) ≠ 8 := by
  norm_num [pairQty, applyFills, sumFills, create_or_update_position,
    emptyDatabase, List.find?]

/-- C6 counterexample: `create_or_update_position` applied to an empty book
with signed quantity −2 does not fail; it succeeds and creates a record with
quantity −2. -/
theorem sell_into_empty_book_creates_record :
    create_or_update_position emptyDatabase 1 1 (-2) 50 =
      Except.ok { emptyDatabase with positions := [⟨1, 1, -2, 50⟩] } ∧
    pairQty { emptyDatabase with positions := [⟨1, 1, -2, 50⟩] } 1 1 =
      some (-2) := by
  norm_num [create_or_update_position, pairQty, emptyDatabase, List.find?]

/-- C6 (amended): with no existing record for the pair, `applyFill` performs
no validation whatsoever — for a negative signed quantity it succeeds and
inserts a position row holding that negative quantity and the fill price; the
`InsufficientQuantity` rejection lives in the Trade Engine, which refuses the
sell before this function is reached. -/
theorem sell_into_empty_book_inserts (db : Database) (u r : Nat) (q p : ℚ)
    (_hq : q < 0)
    (habsent : db.positions.find?
      (fun x => x.user_id == u && x.resource_id == r) = none) :
    create_or_update_position db u r q p =
      Except.ok
        { db with
          positions := db.positions ++
            [{ user_id := u, resource_id := r, quantity := q
               average_price := p }] } := by
  unfold create_or_update_position
  rw [habsent]

/-- Witness for the amended C6 theorem at a concrete input. -/
theorem sell_into_empty_book_inserts_witness :
    create_or_update_position emptyDatabase 3 4 (-1) 9 =
      Except.ok
        { emptyDatabase with
          positions :=
            [{ user_id := 3, resource_id := 4, quantity := -1
               average_price := 9 }] } := by
  have h := sell_into_empty_book_inserts emptyDatabase 3 4 (-1) 9 (by decide)
    (by decide)
  simpa [emptyDatabase] using h

/-- C3: a buy order whose total value `quantity × current_price` exceeds the
user's balance is rejected with `InsufficientFunds` and the returned state is
the input state itself — same balance, same positions, same transaction
count. -/
theorem buy_beyond_balance_rejected (db : Database) (uid : Nat)
    (symbol : String) (qty : ℚ) (ts : Nat) (user : User) (resource : Resource)
    (hqty : 0 < qty) (hsym : symbol ≠ "")
    (huser : get_user_by_id db uid = some user)
    (hres : get_resource_by_symbol db symbol = some resource)
    (hover : user.balance < qty * resource.current_price) :
    execute_trade db uid "buy" symbol qty ts =
      (db, Except.error TradeError.insufficientFunds) := by
  unfold execute_trade
  rw [if_neg (by simp), if_neg (by push_neg; exact ⟨hsym, hqty⟩), hres]
  dsimp only
  rw [if_pos rfl, huser]
  dsimp only
  rw [if_pos hover]

/-- Witness for the C3 theorem: with balance 10000 and price 100, buying 200
units (total 20000) is rejected and the state is unchanged. -/
theorem buy_beyond_balance_rejected_witness :
    execute_trade dbTrade 1 "buy" "ENG" 200 0 =
      (dbTrade, Except.error TradeError.insufficientFunds) :=
  buy_beyond_balance_rejected dbTrade 1 "ENG" 200 0
    ⟨1, "alice", "alice@example.com", "hash", 10000⟩
    ⟨1, "ENG", "Energy Units", 100, 3/100, 0⟩
    (by norm_num) (by decide) rfl rfl (by norm_num)

/-- C4: a sell order whose quantity exceeds the currently held quantity for
the resource — including the case of no position at all — is rejected with
`InsufficientQuantity` and the returned state is the input state itself. -/
theorem sell_beyond_holdings_rejected (db : Database) (uid : Nat)
    (symbol : String) (qty : ℚ) (ts : Nat) (resource : Resource)
    (hqty : 0 < qty) (hsym : symbol ≠ "")
    (hres : get_resource_by_symbol db symbol = some resource)
    (hpos : ∀ pos, get_position db uid resource.id = some pos →
      pos.quantity < qty) :
    execute_trade db uid "sell" symbol qty ts =
      (db, Except.error TradeError.insufficientQuantity) := by
  unfold execute_trade
  rw [if_neg (by simp), if_neg (by push_neg; exact ⟨hsym, hqty⟩), hres]
  dsimp only
  rw [if_neg (by simp)]
  cases hp : get_position db uid resource.id with
  | none => rfl
  | some pos =>
    dsimp only
    rw [if_pos (hpos pos hp)]

/-- Witness for the C4 theorem: selling 5 units with no position at all is
rejected and the state is unchanged. -/
theorem sell_beyond_holdings_rejected_witness :
    execute_trade dbTrade 1 "sell" "ENG" 5 0 =
      (dbTrade, Except.error TradeError.insufficientQuantity) :=
  sell_beyond_holdings_rejected dbTrade 1 "ENG" 5 0
    ⟨1, "ENG", "Energy Units", 100, 3/100, 0⟩
    (by norm_num) (by decide) rfl
    (fun pos h => by simp [get_position, dbTrade, emptyDatabase] at h)

/-- C7: evaluation at the failing input.  From balance 10000 user 1 buys
10 ENG at price 100 twice: the first trade succeeds (balance 9000, one
transaction of signed value −1000), but the second commits the balance debit
to 8000 and then crashes in the position write (`IndexError`), appending no
transaction.  The final balance 8000 differs from initial + signed sum of
recorded transactions = 10000 − 1000 = 9000, so both the per-trade
balance/return rule and the ledger identity of the claim fail. -/
theorem ledger_identity_broken_by_index_error :
    userBalance (runTrades dbTrade
      [⟨1, "buy", "ENG", 10, 0⟩, ⟨1, "buy", "ENG", 10, 1⟩]) 1 = 8000 ∧
    txnSignedSum 1 (runTrades dbTrade
      [⟨1, "buy", "ENG", 10, 0⟩, ⟨1, "buy", "ENG", 10, 1⟩]).transactions =
      -1000 ∧
    userBalance dbTrade 1 = 10000 ∧
    (runTrades dbTrade
      [⟨1, "buy", "ENG", 10, 0⟩, ⟨1, "buy", "ENG", 10, 1⟩]).positions =
      [⟨1, 1, 10, 100⟩] ∧
    (8000 : ℚ) ≠ 10000 + -1000 := by
  norm_num +decide [runTrades, execute_trade, trade_finish, userBalance,
    txnSignedSum, signedValue, get_user_by_id, get_resource_by_symbol,
    get_position, update_user_balance, create_or_update_position,
    create_transaction, resource_exists, dbTrade, emptyDatabase, List.find?]

/-- C8 counterexample: `update_resource_price` with the non-positive price −5
does not fail with `InvalidArgument` (it is a total function with no error
outcome) and it does not leave the stored price unchanged: the stored price
moves from 100 to −5. -/
theorem negative_price_is_stored :
    ((update_resource_price dbStore 1 (-5) 7).resources.find?
      (fun r => r.id == 1)).map Resource.current_price = some (-5) ∧
    (dbStore.resources.find? (fun r => r.id == 1)).map Resource.current_price
      = some 100 ∧
    some (-5 : ℚ) ≠ some (100 : ℚ) := by
  norm_num [update_resource_price, dbStore, emptyDatabase, List.find?]

/-- C8 (amended): `setPrice` performs no validation of the new price.  For
every new price — including zero and negative values — it rewrites the
matching resource rows to carry the new price and timestamp, leaves their
other fields and all non-matching rows intact, and touches no other table. -/
theorem set_price_updates_unconditionally (db : Database) (rid : Nat)
    (np : ℚ) (now : Nat) :
    (update_resource_price db rid np now).users = db.users ∧
    (update_resource_price db rid np now).positions = db.positions ∧
    (update_resource_price db rid np now).transactions = db.transactions ∧
    (∀ r0 ∈ db.resources, r0.id ≠ rid →
      r0 ∈ (update_resource_price db rid np now).resources) ∧
    (∀ r0 ∈ db.resources, r0.id = rid →
      { r0 with current_price := np, last_updated := now } ∈
        (update_resource_price db rid np now).resources) ∧
    (∀ r1 ∈ (update_resource_price db rid np now).resources, r1.id = rid →
      r1.current_price = np ∧ r1.last_updated = now) := by
  refine ⟨rfl, rfl, rfl, ?_, ?_, ?_⟩
  · intro r0 hmem hne
    simp only [update_resource_price, List.mem_map]
    exact ⟨r0, hmem, by simp [hne]⟩
  · intro r0 hmem heq
    simp only [update_resource_price, List.mem_map]
    exact ⟨r0, hmem, by simp [heq]⟩
  · intro r1 hmem heq
    simp only [update_resource_price, List.mem_map] at hmem
    obtain ⟨r0, _, hr0⟩ := hmem
    by_cases h : r0.id = rid
    · simp [h] at hr0
      subst hr0
      exact ⟨rfl, rfl⟩
    · simp [h] at hr0
      subst hr0
      exact absurd heq h

/-- Witness for the amended C8 theorem at a concrete input: setting the price
of the stored resource to −5 yields the same row with price −5 and the new
timestamp. -/
theorem set_price_updates_unconditionally_witness :
    ({ id := 1, symbol := "ENG", name := "Energy Units", current_price := -5
       volatility := 1/50, last_updated := 7 } : Resource) ∈
      (update_resource_price dbStore 1 (-5) 7).resources := by
  have h := (set_price_updates_unconditionally dbStore 1 (-5) 7).2.2.2.2.1
    ⟨1, "ENG", "Energy Units", 100, 1/50, 0⟩ (by simp [dbStore, emptyDatabase])
    rfl
  exact h

/-- C9: under the schema's foreign-key discipline (every transaction row
references an existing resource), `listByUser` returns exactly the user's
transactions — a permutation of the filtered log — ordered by descending
timestamp, and rows sharing a timestamp keep their insertion order: any
two tied rows appearing in log order reappear in the output in that order. -/
theorem listByUser_sorted (db : Database) (uid : Nat)
    (hfk : ∀ t ∈ db.transactions, resource_exists db t.resource_id = true) :
    List.Perm (get_user_transactions db uid)
      (db.transactions.filter (fun t => t.user_id == uid)) ∧
    (get_user_transactions db uid).Pairwise
      (fun a b => b.timestamp ≤ a.timestamp) ∧
    ∀ a b : Transaction, a.timestamp = b.timestamp →
      List.Sublist [a, b]
        (db.transactions.filter (fun t => t.user_id == uid)) →
      List.Sublist [a, b] (get_user_transactions db uid) := by
  have hfilter : db.transactions.filter
      (fun t => t.user_id == uid && resource_exists db t.resource_id) =
      db.transactions.filter (fun t => t.user_id == uid) := by
    apply List.filter_congr
    intro t ht
    by_cases h : (t.user_id == uid) = true
    · simp [h, hfk t ht]
    · simp [h]
  have htrans : ∀ a b c : Transaction,
      (fun x y : Transaction => decide (y.timestamp ≤ x.timestamp)) a b →
      (fun x y : Transaction => decide (y.timestamp ≤ x.timestamp)) b c →
      (fun x y : Transaction => decide (y.timestamp ≤ x.timestamp)) a c := by
    intro a b c hab hbc
    simp only [decide_eq_true_eq] at hab hbc ⊢
    exact le_trans hbc hab
  have htotal : ∀ a b : Transaction,
      ((fun x y : Transaction => decide (y.timestamp ≤ x.timestamp)) a b ||
        (fun x y : Transaction => decide (y.timestamp ≤ x.timestamp)) b a)
        = true := by
    intro a b
    simp only [Bool.or_eq_true, decide_eq_true_eq]
    omega
  refine ⟨?_, ?_, ?_⟩
  · unfold get_user_transactions
    rw [hfilter]
    exact List.mergeSort_perm _ _
  · unfold get_user_transactions
    exact (List.sorted_mergeSort htrans htotal _).imp
      (fun h => of_decide_eq_true h)
  · intro a b hts hsub
    unfold get_user_transactions
    rw [hfilter]
    apply List.sublist_mergeSort htrans htotal
    · have hle : (fun x y : Transaction =>
          decide (y.timestamp ≤ x.timestamp)) a b = true := by
        simp [hts]
      exact List.pairwise_cons.mpr
        ⟨fun y hy => by rcases List.mem_singleton.mp hy with rfl; exact hle,
         List.pairwise_singleton _ _⟩
    · exact hsub

/-- Witness for the C9 theorem on the concrete log `dbLog`: rows 1 and 3 of
user 1 share timestamp 5 and reappear in insertion order in the sorted
output. -/
theorem listByUser_sorted_witness :
    List.Sublist
      [(⟨1, 1, 1, "buy", 1, 10, 10, 5⟩ : Transaction),
       (⟨3, 1, 1, "sell", 1, 12, 12, 5⟩ : Transaction)]
      (get_user_transactions dbLog 1) :=
  (listByUser_sorted dbLog 1 (by decide)).2.2
    ⟨1, 1, 1, "buy", 1, 10, 10, 5⟩ ⟨3, 1, 1, "sell", 1, 12, 12, 5⟩ rfl
    (by decide)

/-- C10: every successful `create_user` call appends exactly one user row
whose balance is the hard-wired 10000, independently of every argument, and
returns the fresh AUTOINCREMENT id; the caller cannot supply a balance. -/
theorem new_user_starts_with_10000 (db : Database) (un em ph : String)
    (uid : Nat) (db2 : Database)
    (h : create_user db un em ph = Except.ok (uid, db2)) :
    uid = db.next_user_id ∧
    db2.users = db.users ++
      [{ id := uid, username := un, email := em, hashed_password := ph
         balance := 10000 }] := by
  unfold create_user at h
  split at h
  · exact absurd h (by simp)
  · simp only [Except.ok.injEq, Prod.mk.injEq] at h
    obtain ⟨h1, h2⟩ := h
    subst h1
    subst h2
    exact ⟨rfl, rfl⟩

/-- Witness for the C10 theorem: registering into the empty database yields
user id 1 with balance 10000. -/
theorem new_user_starts_with_10000_witness :
    1 = emptyDatabase.next_user_id ∧
    dbAfterRegister.users = emptyDatabase.users ++
      [{ id := 1, username := "bob", email := "bob@example.com"
         hashed_password := "hash2", balance := 10000 }] :=
  new_user_starts_with_10000 emptyDatabase "bob" "bob@example.com" "hash2" 1
    dbAfterRegister (by norm_num [create_user, emptyDatabase, dbAfterRegister])

end TradingPlatform
